import Mathlib

/-!
Verification of the options payoff module (`fastbt/options/payoff.py`).

The module defines one contract record (`OptionContract`) with a
construction-time premium validator and two valuation functions
(`value`, `net_value`), and a payoff book (`OptionPayoff`) that owns a
list of contracts and aggregates them (`net_positions`,
`has_naked_positions`, `payoff`, `simulate`).

Embedding conventions: Python floats are modelled by `ℚ`, Python ints
by `ℤ`.  Pydantic construction (which can raise a `ValidationError`)
is modelled by `mkOptionContract` returning `Except String`.  The
mutating method `add_contract` is modelled by explicit state passing:
it returns the book after the call together with the error, if any was
raised; when construction raises, the book is returned unchanged,
because the exception propagates before the append runs.
-/

namespace FastbtPayoff

/-- The `Opt` enum: instrument kind (call, put, future or holding). -/
inductive Opt where
  | CALL
  | PUT
  | FUTURE
  | HOLDING
deriving DecidableEq, Repr

/-- The `Side` enum: buy or sell. -/
inductive Side where
  | BUY
  | SELL
deriving DecidableEq, Repr

/-- `Side.value`: the underlying enum value, 1 for buy and -1 for sell. -/
def Side.value : Side → ℤ
  | Side.BUY => 1
  | Side.SELL => -1

/-- The fields of `OptionContract`: strike, option kind, side,
premium (default 0.0) and quantity (default 1). -/
structure OptionContract where
  strike : ℚ
  option : Opt
  side : Side
  premium : ℚ := 0
  quantity : ℤ := 1
deriving DecidableEq, Repr

/-- Pydantic construction of an `OptionContract`.  The only validator is
`premium_check`: it raises when the option is a CALL or a PUT and the
premium equals 0.0; otherwise the record is built from the given fields
as they are. -/
def mkOptionContract (strike : ℚ) (option : Opt) (side : Side)
    (premium : ℚ) (quantity : ℤ) : Except String OptionContract :=
  if (option = Opt.CALL ∨ option = Opt.PUT) ∧ premium = 0 then
    Except.error "Premium mandatory for option"
  else
    Except.ok ⟨strike, option, side, premium, quantity⟩

/-- `OptionContract.value`: gross value of the contract at the given
spot for a single quantity. -/
def OptionContract.value (c : OptionContract) (spot : ℚ) : ℚ :=
  if c.option = Opt.CALL then max (spot - c.strike) 0
  else if c.option = Opt.PUT then max (c.strike - spot) 0
  else spot - c.strike

/-- `OptionContract.net_value`: net value of the contract at the given
spot; premium is subtracted only for calls and puts. -/
def OptionContract.net_value (c : OptionContract) (spot : ℚ) : ℚ :=
  let val := c.value spot
  if c.option = Opt.CALL ∨ c.option = Opt.PUT then
    (val - c.premium) * (c.side.value : ℚ) * (c.quantity : ℚ)
  else
    val * (c.side.value : ℚ) * (c.quantity : ℚ)

/-- The `OptionPayoff` book: a default spot, a lot size, and the owned
list of contracts (the `_options` private attribute, exposed through the
`options` property). -/
structure OptionPayoff where
  spot : ℚ := 0
  lot_size : ℤ := 1
  options : List OptionContract := []
deriving DecidableEq, Repr

/-- `OptionPayoff.add`: append an already-constructed contract. -/
def OptionPayoff.add (p : OptionPayoff) (contract : OptionContract) :
    OptionPayoff :=
  { p with options := p.options ++ [contract] }

/-- `OptionPayoff.add_contract`: construct a contract from the given
arguments and append it.  Returns the book after the call and the
raised error, if any; on error the append never runs, so the book is
unchanged. -/
def OptionPayoff.add_contract (p : OptionPayoff) (strike : ℚ)
    (opt_type : Opt) (side : Side) (premium : ℚ) (qty : ℤ) :
    OptionPayoff × Option String :=
  match mkOptionContract strike opt_type side premium qty with
  | Except.ok c => ({ p with options := p.options ++ [c] }, none)
  | Except.error e => (p, some e)

/-- One step of the `net_positions` loop: `positions[k] += v` on a
`Counter` (a total map with default 0). -/
def counterAdd (pos : Opt → ℤ) (k : Opt) (v : ℤ) : Opt → ℤ :=
  fun j => if j = k then pos j + v else pos j

/-- `OptionPayoff.net_positions`: for each contract, accumulate
`quantity * side.value * lot_size` into the bucket of its option kind.
The `Counter` is modelled as a total function `Opt → ℤ`, zero on absent
keys, exactly as `Counter` lookup behaves. -/
def OptionPayoff.net_positions (p : OptionPayoff) : Opt → ℤ :=
  p.options.foldl
    (fun pos contract =>
      counterAdd pos contract.option
        (contract.quantity * contract.side.value * p.lot_size))
    (fun _ => 0)

/-- `OptionPayoff.has_naked_positions`: true when the net CALL bucket is
negative, else true when the net PUT bucket is negative, else false. -/
def OptionPayoff.has_naked_positions (p : OptionPayoff) : Bool :=
  if p.net_positions Opt.CALL < 0 then true
  else if p.net_positions Opt.PUT < 0 then true
  else false

/-- `OptionPayoff.clear`: reset the contract list to empty. -/
def OptionPayoff.clear (p : OptionPayoff) : OptionPayoff :=
  { p with options := [] }

/-- The spot actually used by `payoff`: the body starts with
`if not spot: spot = self.spot`, and a Python float is falsy exactly
when it equals 0.0, so both a missing argument and an argument equal to
zero fall back to the stored default spot. -/
def OptionPayoff.effective_spot (p : OptionPayoff) (spot : Option ℚ) : ℚ :=
  match spot with
  | none => p.spot
  | some v => if v = 0 then p.spot else v

/-- `OptionPayoff.payoff`: 0.0 on an empty book, otherwise the sum of
`net_value(spot) * lot_size` over the contracts, at the effective
spot. -/
def OptionPayoff.payoff (p : OptionPayoff) (spot : Option ℚ) : ℚ :=
  if p.options.length = 0 then 0
  else
    (p.options.map
      (fun contract =>
        contract.net_value (p.effective_spot spot) * (p.lot_size : ℚ))).sum

/-- `OptionPayoff.simulate`: payoff at each price of the list. -/
def OptionPayoff.simulate (p : OptionPayoff) (spot : List ℚ) : List ℚ :=
  spot.map (fun price => p.payoff (some price))

/-! ### Helper lemmas -/

/-- Unfolding the `net_positions` accumulation loop: looking up a key in
the final counter yields its value in the initial counter plus the sum
of the contributions of the contracts of that kind. -/
lemma foldl_counter (lot : ℤ) (l : List OptionContract) (pos : Opt → ℤ)
    (k : Opt) :
    (l.foldl
        (fun pos contract =>
          counterAdd pos contract.option
            (contract.quantity * contract.side.value * lot)) pos) k
      = pos k
        + ((l.filter (fun c => c.option = k)).map
            (fun c => c.quantity * c.side.value * lot)).sum := by
  induction l generalizing pos with
  | nil => simp
  | cons c t ih =>
    simp only [List.foldl_cons, List.filter_cons]
    rw [ih]
    by_cases h : c.option = k
    · simp [counterAdd, h, add_assoc]
    · have h2 : ¬ k = c.option := fun hk => h hk.symm
      simp [counterAdd, h, h2]

/-- `net_positions` at a key is the sum of `quantity * side * lot_size`
over the contracts of that kind. -/
lemma net_positions_eq (p : OptionPayoff) (k : Opt) :
    p.net_positions k
      = ((p.options.filter (fun c => c.option = k)).map
          (fun c => c.quantity * c.side.value * p.lot_size)).sum := by
  unfold OptionPayoff.net_positions
  rw [foldl_counter]
  simp

/-- Pulling a common right factor out of a mapped sum. -/
lemma sum_map_mul_right (l : List OptionContract)
    (f : OptionContract → ℚ) (r : ℚ) :
    (l.map (fun c => f c * r)).sum = (l.map f).sum * r := by
  induction l with
  | nil => simp
  | cons c t ih => simp [ih, add_mul]

/-! ### Claims -/

/-- C2: for every contract and spot `s`, `net_value s` is
`(max (s - strike) 0 - premium) * side * quantity` for a CALL,
`(max (strike - s) 0 - premium) * side * quantity` for a PUT, and
`(s - strike) * side * quantity` for a FUTURE or HOLDING, the premium
being ignored there whatever its value; the side multiplier is 1 for
BUY and -1 for SELL. -/
theorem C2_net_value_formula (strike premium : ℚ) (side : Side)
    (quantity : ℤ) (s : ℚ) :
    (OptionContract.net_value ⟨strike, Opt.CALL, side, premium, quantity⟩ s
        = (max (s - strike) 0 - premium) * (side.value : ℚ) * (quantity : ℚ))
      ∧ (OptionContract.net_value ⟨strike, Opt.PUT, side, premium, quantity⟩ s
        = (max (strike - s) 0 - premium) * (side.value : ℚ) * (quantity : ℚ))
      ∧ (OptionContract.net_value
            ⟨strike, Opt.FUTURE, side, premium, quantity⟩ s
        = (s - strike) * (side.value : ℚ) * (quantity : ℚ))
      ∧ (OptionContract.net_value
            ⟨strike, Opt.HOLDING, side, premium, quantity⟩ s
        = (s - strike) * (side.value : ℚ) * (quantity : ℚ))
      ∧ Side.value Side.BUY = 1 ∧ Side.value Side.SELL = -1 := by
  refine ⟨?_, ?_, ?_, ?_, rfl, rfl⟩ <;>
    simp [OptionContract.net_value, OptionContract.value]

/-- C3: constructing a contract fails if and only if the kind is CALL
or PUT and the premium equals 0.0; otherwise construction succeeds and
every given field (negative strikes and non-positive quantities
included) is stored unchanged, no other validation being performed. -/
theorem C3_premium_validation (strike premium : ℚ) (option : Opt)
    (side : Side) (quantity : ℤ) :
    ((∃ e, mkOptionContract strike option side premium quantity
          = Except.error e)
        ↔ ((option = Opt.CALL ∨ option = Opt.PUT) ∧ premium = 0))
      ∧ (¬ ((option = Opt.CALL ∨ option = Opt.PUT) ∧ premium = 0)
          → mkOptionContract strike option side premium quantity
              = Except.ok ⟨strike, option, side, premium, quantity⟩) := by
  unfold mkOptionContract
  by_cases h : (option = Opt.CALL ∨ option = Opt.PUT) ∧ premium = 0
  · simp [h]
  · simp [h]

/-- C3 witness: a PUT with negative premium -7 and negative strike -1
and quantity -2 is built as given; a CALL with premium 0 errors. -/
theorem C3_premium_validation_witness :
    (¬ ((Opt.PUT = Opt.CALL ∨ Opt.PUT = Opt.PUT) ∧ (-7 : ℚ) = 0)
        → mkOptionContract (-1) Opt.PUT Side.SELL (-7) (-2)
            = Except.ok ⟨-1, Opt.PUT, Side.SELL, -7, -2⟩)
      ∧ (∃ e, mkOptionContract 100 Opt.CALL Side.BUY 0 1
            = Except.error e) :=
  ⟨(C3_premium_validation (-1) (-7) Opt.PUT Side.SELL (-2)).2,
    ((C3_premium_validation 100 0 Opt.CALL Side.BUY 1).1.mpr
      ⟨Or.inl rfl, rfl⟩)⟩

/-- C4: `add_contract` is atomic.  Either construction succeeds and the
call returns the book with exactly the one new contract appended at the
end (spot and lot size untouched) and no error, or the premium check
fails, the error is raised, and the book is returned exactly as it
was. -/
theorem C4_add_contract_atomic (p : OptionPayoff) (strike premium : ℚ)
    (opt_type : Opt) (side : Side) (qty : ℤ) :
    (p.add_contract strike opt_type side premium qty
        = ({ p with options :=
              p.options ++ [⟨strike, opt_type, side, premium, qty⟩] }, none))
      ∨ ((∃ e, p.add_contract strike opt_type side premium qty
            = (p, some e))
          ∧ (opt_type = Opt.CALL ∨ opt_type = Opt.PUT) ∧ premium = 0) := by
  unfold OptionPayoff.add_contract mkOptionContract
  by_cases h : (opt_type = Opt.CALL ∨ opt_type = Opt.PUT) ∧ premium = 0
  · exact Or.inr ⟨⟨"Premium mandatory for option", by simp [h]⟩, h⟩
  · left
    simp [h]

/-- C5: `net_positions` looked up at a kind `k` is the sum of
`quantity * side multiplier * lot_size` over the contracts of kind `k`,
and a kind with no contracts reports zero under lookup. -/
theorem C5_net_positions_sum (p : OptionPayoff) (k : Opt) :
    p.net_positions k
        = ((p.options.filter (fun c => c.option = k)).map
            (fun c => c.quantity * c.side.value * p.lot_size)).sum
      ∧ (p.options.filter (fun c => c.option = k) = []
          → p.net_positions k = 0) := by
  refine ⟨net_positions_eq p k, fun h => ?_⟩
  rw [net_positions_eq, h]
  rfl

/-- C5 witness: a book holding one short PUT has no CALL contracts and
its CALL bucket reads zero. -/
theorem C5_net_positions_sum_witness :
    (([(⟨90, Opt.PUT, Side.SELL, 4, 3⟩ : OptionContract)]).filter
        (fun c => c.option = Opt.CALL) = [])
      ∧ (({ spot := 0, lot_size := 5,
            options := [⟨90, Opt.PUT, Side.SELL, 4, 3⟩] }
              : OptionPayoff)).net_positions Opt.CALL = 0 :=
  ⟨rfl,
    (C5_net_positions_sum ⟨0, 5, [⟨90, Opt.PUT, Side.SELL, 4, 3⟩]⟩
        Opt.CALL).2 rfl⟩

/-- C6: `has_naked_positions` holds exactly when the net CALL bucket or
the net PUT bucket is negative, so FUTURE and HOLDING exposure never
affects it; a long call and a short call of equal size net to a zero
CALL bucket and no naked position. -/
theorem C6_has_naked_iff (p : OptionPayoff) :
    (p.has_naked_positions = true
        ↔ (p.net_positions Opt.CALL < 0 ∨ p.net_positions Opt.PUT < 0))
      ∧ (({ spot := 0, lot_size := 1,
            options := [⟨100, Opt.CALL, Side.BUY, 5, 2⟩,
              ⟨100, Opt.CALL, Side.SELL, 5, 2⟩] }
              : OptionPayoff)).net_positions Opt.CALL = 0
      ∧ (({ spot := 0, lot_size := 1,
            options := [⟨100, Opt.CALL, Side.BUY, 5, 2⟩,
              ⟨100, Opt.CALL, Side.SELL, 5, 2⟩] }
              : OptionPayoff)).has_naked_positions = false := by
  refine ⟨?_, by decide, by decide⟩
  unfold OptionPayoff.has_naked_positions
  by_cases h1 : p.net_positions Opt.CALL < 0
  · simp [h1]
  · by_cases h2 : p.net_positions Opt.PUT < 0 <;> simp [h1, h2]

/-- C7: `simulate` keeps the length and order of the spot list, its
i-th element is `payoff` of the i-th spot, and the empty list gives the
empty list. -/
theorem C7_simulate_pointwise (p : OptionPayoff) (spot : List ℚ)
    (i : ℕ) :
    (p.simulate spot).length = spot.length
      ∧ (p.simulate spot)[i]?
          = (spot[i]?).map (fun price => p.payoff (some price))
      ∧ p.simulate [] = [] := by
  refine ⟨?_, ?_, rfl⟩ <;> simp [OptionPayoff.simulate]

/-- C9: `payoff` on an empty book is 0.0 whatever the spot argument,
and after `clear` the payoff is 0.0 whatever the book held before. -/
theorem C9_empty_and_clear_payoff (p : OptionPayoff) (s : Option ℚ) :
    (p.options = [] → p.payoff s = 0) ∧ (p.clear).payoff s = 0 := by
  constructor
  · intro h
    simp [OptionPayoff.payoff, h]
  · simp [OptionPayoff.clear, OptionPayoff.payoff]

/-- C9 witness: the empty book with default spot 5 pays 0 at spot 7. -/
theorem C9_empty_and_clear_payoff_witness :
    (({ spot := 5, lot_size := 2, options := [] } : OptionPayoff)).options
        = []
      ∧ (({ spot := 5, lot_size := 2, options := [] }
            : OptionPayoff)).payoff (some 7) = 0 :=
  ⟨rfl, (C9_empty_and_clear_payoff ⟨5, 2, []⟩ (some 7)).1 rfl⟩

/-- C10: passing the explicit spot 0.0 is the same as passing no spot
at all — the falsiness of the argument, not its absence, triggers the
fallback — so `payoff (some 0)` is the payoff at the stored default
spot, not at price zero. -/
theorem C10_zero_spot_fallback (p : OptionPayoff) :
    p.payoff (some 0) = p.payoff none
      ∧ (p.options ≠ []
          → p.payoff (some 0)
              = (p.options.map
                  (fun c => c.net_value p.spot * (p.lot_size : ℚ))).sum) := by
  have hs : p.effective_spot (some 0) = p.effective_spot none := by
    simp [OptionPayoff.effective_spot]
  constructor
  · unfold OptionPayoff.payoff
    rw [hs]
  · intro h
    have hlen : ¬ p.options.length = 0 := by
      simpa [List.length_eq_zero] using h
    unfold OptionPayoff.payoff
    rw [if_neg hlen]
    simp [OptionPayoff.effective_spot]

/-- C10 witness: a book with default spot 5 and one long future at
strike 1 pays 4 when asked for `payoff 0.0` — the value at spot 5, not
the value -1 at spot 0. -/
theorem C10_zero_spot_fallback_witness :
    (({ spot := 5, lot_size := 1,
        options := [⟨1, Opt.FUTURE, Side.BUY, 0, 1⟩] }
          : OptionPayoff)).options ≠ []
      ∧ (({ spot := 5, lot_size := 1,
            options := [⟨1, Opt.FUTURE, Side.BUY, 0, 1⟩] }
              : OptionPayoff)).payoff (some 0)
          = (([(⟨1, Opt.FUTURE, Side.BUY, 0, 1⟩ : OptionContract)]).map
              (fun c => c.net_value 5 * ((1 : ℤ) : ℚ))).sum :=
  ⟨by simp,
    (C10_zero_spot_fallback ⟨5, 1, [⟨1, Opt.FUTURE, Side.BUY, 0, 1⟩]⟩).2
      (by simp)⟩

/-- C1 counterexample: the claim fails at the explicit spot 0.  A book
with default spot 5 holding one long future at strike 1 returns
`payoff (some 0) = 4` (evaluated at the default spot 5 because a zero
argument is falsy), not the sum of net values at 0, which is -1. -/
theorem C1_payoff_counterexample :
    ¬ ((({ spot := 5, lot_size := 1,
           options := [⟨1, Opt.FUTURE, Side.BUY, 0, 1⟩] }
             : OptionPayoff)).payoff (some 0)
        = (([(⟨1, Opt.FUTURE, Side.BUY, 0, 1⟩ : OptionContract)]).map
            (fun c => c.net_value 0)).sum * ((1 : ℤ) : ℚ)) := by
  norm_num [OptionPayoff.payoff, OptionPayoff.effective_spot,
    OptionContract.net_value, OptionContract.value, Side.value]
  decide

/-- C1 (amended): for every nonempty book and every NONZERO spot `s`,
`payoff (some s)` is the sum of the contracts' net values at `s` times
the lot size; with no spot argument the sum is evaluated at the stored
default spot.  (At the explicit spot 0 the falsiness fallback evaluates
at the default spot instead — see C10.) -/
theorem C1_payoff_sum (p : OptionPayoff) (s : ℚ) (hs : s ≠ 0)
    (h : p.options ≠ []) :
    p.payoff (some s)
        = (p.options.map (fun c => c.net_value s)).sum * (p.lot_size : ℚ)
      ∧ p.payoff none
        = (p.options.map (fun c => c.net_value p.spot)).sum
            * (p.lot_size : ℚ) := by
  have hlen : ¬ p.options.length = 0 := by
    simpa [List.length_eq_zero] using h
  constructor
  · unfold OptionPayoff.payoff
    rw [if_neg hlen]
    simp only [OptionPayoff.effective_spot, if_neg hs]
    exact sum_map_mul_right _ _ _
  · unfold OptionPayoff.payoff
    rw [if_neg hlen]
    simp only [OptionPayoff.effective_spot]
    exact sum_map_mul_right _ _ _

/-- C1 witness: a book with default spot 3, lot size 2 and one long
call at strike 5 with premium 2, queried at the nonzero spot 7. -/
theorem C1_payoff_sum_witness :
    (7 : ℚ) ≠ 0
      ∧ (({ spot := 3, lot_size := 2,
            options := [⟨5, Opt.CALL, Side.BUY, 2, 1⟩] }
              : OptionPayoff)).options ≠ []
      ∧ ((({ spot := 3, lot_size := 2,
             options := [⟨5, Opt.CALL, Side.BUY, 2, 1⟩] }
               : OptionPayoff)).payoff (some 7)
            = (([(⟨5, Opt.CALL, Side.BUY, 2, 1⟩ : OptionContract)]).map
                (fun c => c.net_value 7)).sum * ((2 : ℤ) : ℚ)
          ∧ (({ spot := 3, lot_size := 2,
                options := [⟨5, Opt.CALL, Side.BUY, 2, 1⟩] }
                  : OptionPayoff)).payoff none
            = (([(⟨5, Opt.CALL, Side.BUY, 2, 1⟩ : OptionContract)]).map
                (fun c => c.net_value 3)).sum * ((2 : ℤ) : ℚ)) :=
  ⟨by norm_num, by simp,
    C1_payoff_sum ⟨3, 2, [⟨5, Opt.CALL, Side.BUY, 2, 1⟩]⟩ 7
      (by norm_num) (by simp)⟩

/-- C8: permuting the contract list of a book (spot and lot size kept)
changes none of `payoff`, `net_positions` or `has_naked_positions`. -/
theorem C8_perm_invariant (p q : OptionPayoff) (hspot : p.spot = q.spot)
    (hlot : p.lot_size = q.lot_size) (hperm : p.options.Perm q.options)
    (s : Option ℚ) (k : Opt) :
    p.payoff s = q.payoff s
      ∧ p.net_positions k = q.net_positions k
      ∧ p.has_naked_positions = q.has_naked_positions := by
  have hes : p.effective_spot s = q.effective_spot s := by
    unfold OptionPayoff.effective_spot
    rw [hspot]
  have hnet : ∀ j, p.net_positions j = q.net_positions j := by
    intro j
    rw [net_positions_eq, net_positions_eq, hlot]
    exact List.Perm.sum_eq ((hperm.filter _).map _)
  refine ⟨?_, hnet k, ?_⟩
  · unfold OptionPayoff.payoff
    rw [hes, hlot, hperm.length_eq]
    by_cases hl : q.options.length = 0
    · simp [hl]
    · rw [if_neg hl, if_neg hl]
      exact List.Perm.sum_eq (hperm.map _)
  · unfold OptionPayoff.has_naked_positions
    rw [hnet Opt.CALL, hnet Opt.PUT]

/-- C8 witness: swapping a long call and a short put leaves payoff at
spot 130, the CALL bucket and the naked flag unchanged. -/
theorem C8_perm_invariant_witness :
    (({ spot := 10, lot_size := 2,
        options := [⟨100, Opt.CALL, Side.BUY, 5, 1⟩,
          ⟨90, Opt.PUT, Side.SELL, 4, 2⟩] } : OptionPayoff)).payoff
        (some 130)
        = (({ spot := 10, lot_size := 2,
              options := [⟨90, Opt.PUT, Side.SELL, 4, 2⟩,
                ⟨100, Opt.CALL, Side.BUY, 5, 1⟩] } : OptionPayoff)).payoff
            (some 130)
      ∧ (({ spot := 10, lot_size := 2,
            options := [⟨100, Opt.CALL, Side.BUY, 5, 1⟩,
              ⟨90, Opt.PUT, Side.SELL, 4, 2⟩] }
              : OptionPayoff)).net_positions Opt.CALL
        = (({ spot := 10, lot_size := 2,
              options := [⟨90, Opt.PUT, Side.SELL, 4, 2⟩,
                ⟨100, Opt.CALL, Side.BUY, 5, 1⟩] }
                : OptionPayoff)).net_positions Opt.CALL
      ∧ (({ spot := 10, lot_size := 2,
            options := [⟨100, Opt.CALL, Side.BUY, 5, 1⟩,
              ⟨90, Opt.PUT, Side.SELL, 4, 2⟩] }
              : OptionPayoff)).has_naked_positions
        = (({ spot := 10, lot_size := 2,
              options := [⟨90, Opt.PUT, Side.SELL, 4, 2⟩,
                ⟨100, Opt.CALL, Side.BUY, 5, 1⟩] }
                : OptionPayoff)).has_naked_positions :=
  C8_perm_invariant
    ⟨10, 2, [⟨100, Opt.CALL, Side.BUY, 5, 1⟩,
      ⟨90, Opt.PUT, Side.SELL, 4, 2⟩]⟩
    ⟨10, 2, [⟨90, Opt.PUT, Side.SELL, 4, 2⟩,
      ⟨100, Opt.CALL, Side.BUY, 5, 1⟩]⟩
    rfl rfl (List.Perm.swap _ _ _) (some 130) Opt.CALL

end FastbtPayoff
